import Mathlib

/-!
Shallow embedding of the AgroSense intelligence engine.

Sources embedded here:
  - backend/src/utilities/intelligence.utils.js — pure functions
    (getThresholds, calculateCropStressRisk, generateIrrigationDecision,
    detectAnomalies, calculateWaterSavings, estimateDryingTime,
    computeIrrigationTime);
  - the intelligence service module (decision cache, sensor-history
    buffers, getIntelligenceReport, ingestSensorData, updateCropConfig,
    buildFieldState, getIrrigationStats, getNDVITrend, getStageThresholds,
    getDefaultReport).

Modelling conventions:
  - JS numbers are modelled by the rationals;
  - Math.round is jsRound below (floor of x + 1/2, which is how JS rounds
    halves, toward positive infinity); Math.ceil is Int.ceil;
  - a JS value that may be null or undefined is an Option;
  - a JS expression that throws a TypeError (property access on
    undefined) makes the enclosing pure function return none;
  - string-valued report fields that only carry human-readable messages
    (reasons, alert messages, descriptions) and wall-clock ISO strings are
    not modelled; numeric timestamps are modelled as integer milliseconds.
-/

namespace AgroSense

/-- JS Math.round: round to nearest, halves toward positive infinity. -/
def jsRound (q : ℚ) : ℤ := ⌊q + 1/2⌋

/-- A crop-stage moisture threshold record. -/
structure Thresholds where
  min : ℚ
  max : ℚ
  critical_low : ℚ
deriving DecidableEq

/-- A threshold table: a JS object mapping stage names to records
(absent keys are none). -/
def ThTable : Type := String → Option Thresholds

/-- The DEFAULT_THRESHOLDS table of intelligence.utils.js. -/
def DEFAULT_THRESHOLDS : ThTable := fun stage =>
  if stage = "germination" then some ⟨60, 80, 50⟩
  else if stage = "seedling" then some ⟨55, 75, 45⟩
  else if stage = "vegetative" then some ⟨45, 70, 35⟩
  else if stage = "flowering" then some ⟨50, 75, 40⟩
  else if stage = "fruiting" then some ⟨45, 70, 35⟩
  else if stage = "maturity" then some ⟨35, 60, 25⟩
  else if stage = "harvest" then some ⟨20, 45, 15⟩
  else none

/-- getThresholds(stage, customThresholds): uses the custom table when one
is passed (JS truthiness: any object is truthy, null is falsy), then
returns thresholds[stage] with thresholds.vegetative as fallback; both
lookups can miss, in which case JS yields undefined (none here). -/
def getThresholds (stage : String) (customThresholds : Option ThTable) : Option Thresholds :=
  let thresholds := customThresholds.getD DEFAULT_THRESHOLDS
  match thresholds stage with
  | some t => some t
  | none => thresholds "vegetative"

/-- getStageThresholds of the intelligence service module: a local copy of
getThresholds whose default table has the same seven entries. -/
def getStageThresholds (stage : String) (customThresholds : Option ThTable) : Option Thresholds :=
  getThresholds stage customThresholds

/-- estimateDryingTime(currentMoisture, targetMoisture, temperature,
humidity) from intelligence.utils.js. -/
def estimateDryingTime (currentMoisture targetMoisture temperature humidity : ℚ) : ℤ :=
  if currentMoisture ≤ targetMoisture then 0
  else
    let etFactor := (temperature / 30) * ((100 - humidity) / 50)
    let baseDryingRate : ℚ := 3/2
    let effectiveDryingRate := baseDryingRate * max (3/10) etFactor
    let moistureToDrop := currentMoisture - targetMoisture
    max 1 (jsRound (moistureToDrop / effectiveDryingRate))

/-- computeIrrigationTime(waterQuantityLiters, flowRateLPM) from
intelligence.utils.js. -/
def computeIrrigationTime (waterQuantityLiters : ℤ) (flowRateLPM : ℚ) : ℤ :=
  if waterQuantityLiters ≤ 0 ∨ flowRateLPM ≤ 0 then 0
  else ⌈(waterQuantityLiters : ℚ) / flowRateLPM⌉

example : estimateDryingTime 60 40 30 50 = 13 := by
  norm_num [estimateDryingTime, jsRound]
example : estimateDryingTime 50 50 20 90 = 0 := by
  norm_num [estimateDryingTime]
example : getThresholds "unknown" none = some ⟨45, 70, 35⟩ := by decide

/-- The unified field state built by the fusion layer. All numeric fields
are plain numbers there (every access path fills a numeric default), so
they are plain rationals here; thresholds may be null (none). -/
structure FieldState where
  farm_id : String
  soil_moisture : ℚ
  temperature : ℚ
  humidity : ℚ
  rain_detected : Bool
  rain_forecast : Bool
  ndvi : ℚ
  crop_type : String
  soil_type : String
  growth_stage : String
  thresholds : Option ThTable
  pump_on : Bool
  field_area_sqm : ℚ
  sprinkler_flow_rate : ℚ
  last_irrigation_hours : ℚ

/-- Moisture deficit stress component of calculateCropStressRisk. -/
def moistureStressOf (th : Thresholds) (soil_moisture : ℚ) : ℚ :=
  if soil_moisture < th.critical_low then 100
  else if soil_moisture < th.min then
    50 + ((th.min - soil_moisture) / (th.min - th.critical_low)) * 50
  else if soil_moisture > th.max then
    min 40 (((soil_moisture - th.max) / 20) * 40)
  else 0

/-- Temperature stress component of calculateCropStressRisk. -/
def tempStressOf (temperature : ℚ) : ℚ :=
  if temperature > 42 then 100
  else if temperature > 38 then 60 + ((temperature - 38) / 4) * 40
  else if temperature > 35 then 30 + ((temperature - 35) / 3) * 30
  else if temperature < 5 then 80
  else if temperature < 10 then 30
  else 0

/-- NDVI vegetation stress component of calculateCropStressRisk. -/
def ndviStressOf (ndvi : ℚ) : ℚ :=
  if ndvi < 1/5 then 100
  else if ndvi < 3/10 then 60 + ((3/10 - ndvi) / (1/10)) * 40
  else if ndvi < 1/2 then 20 + ((1/2 - ndvi) / (1/5)) * 40
  else if ndvi > 7/10 then 0
  else max 0 ((7/10 - ndvi) / (1/5) * 20)

/-- Humidity stress component of calculateCropStressRisk. -/
def humidityStressOf (humidity : ℚ) : ℚ :=
  if humidity < 20 then 80
  else if humidity < 30 then 40
  else if humidity > 90 then 30
  else 0

/-- The weighted, clamped, rounded risk score, given resolved thresholds. -/
def riskScoreOf (th : Thresholds) (fs : FieldState) : ℤ :=
  jsRound (min 100 (max 0
    (moistureStressOf th fs.soil_moisture * (2/5) +
     tempStressOf fs.temperature * (1/5) +
     ndviStressOf fs.ndvi * (1/4) +
     humidityStressOf fs.humidity * (3/20))))

/-- calculateCropStressRisk(fieldState): resolves thresholds first (a
property access on an undefined record throws, hence none), then computes
the weighted score. -/
def calculateCropStressRisk (fs : FieldState) : Option ℤ :=
  (getThresholds fs.growth_stage fs.thresholds).map (fun th => riskScoreOf th fs)

inductive Action | START | STOP | DELAY
deriving DecidableEq

inductive Priority | HIGH | MEDIUM | LOW | NORMAL
deriving DecidableEq

/-- The record returned by generateIrrigationDecision (the human-readable
reason string is not modelled). -/
structure Decision where
  action : Action
  priority : Priority
  waterQuantityLiters : ℤ
  delayHours : ℤ
deriving DecidableEq

/-- generateIrrigationDecision(fieldState). The rain rules return before
any threshold field is read, so they apply even when threshold resolution
yields undefined; after them a failed resolution makes the JS code throw
on the first property access (none here). -/
def generateIrrigationDecision (fs : FieldState) : Option Decision :=
  if fs.rain_detected then
    some ⟨.STOP, .LOW, 0, 6⟩
  else if fs.rain_forecast then
    some ⟨.DELAY, .LOW, 0, 4⟩
  else
    (getThresholds fs.growth_stage fs.thresholds).map (fun th =>
      if fs.soil_moisture < th.critical_low then
        let deficit := th.min - fs.soil_moisture
        ⟨.START, .HIGH, jsRound ((deficit / 100) * fs.field_area_sqm * (3/5)), 0⟩
      else if fs.soil_moisture < th.min then
        let priority : Priority := if fs.ndvi < 2/5 then .HIGH else .MEDIUM
        let deficit := th.min - fs.soil_moisture
        ⟨.START, priority, jsRound ((deficit / 100) * fs.field_area_sqm * (1/2)), 0⟩
      else if th.min ≤ fs.soil_moisture ∧ fs.soil_moisture ≤ th.max then
        if fs.ndvi < 3/10 then
          ⟨.DELAY, .MEDIUM, 0, 2⟩
        else
          ⟨.DELAY, .LOW, 0,
            estimateDryingTime fs.soil_moisture th.min fs.temperature fs.humidity⟩
      else
        ⟨.STOP, .LOW, 0, 8⟩)

inductive AlertType
  | PUMP_ANOMALY | SENSOR_FAILURE | WATERLOGGING
  | NDVI_MOISTURE_CONFLICT | HEAT_STRESS | FROST_RISK
deriving DecidableEq

inductive Severity | high | medium
deriving DecidableEq

/-- An anomaly alert (message and timestamp strings not modelled). -/
structure Alert where
  type : AlertType
  severity : Severity
deriving DecidableEq

/-- A sensor-history buffer entry (as pushed by ingestSensorData). -/
structure Reading where
  soil_moisture : ℚ
  temperature : ℚ
  humidity : ℚ
  pump_on : Bool
deriving DecidableEq

/-- Placeholder reading: only read behind a length guard that makes the
window non-empty, so its value is never observable. -/
def emptyReading : Reading := ⟨0, 0, 0, false⟩

/-- detectAnomalies(fieldState, sensorHistory). Each trigger appends its
alert independently; the JS guard that ndvi is neither null nor undefined
is always satisfied here because the fused state's ndvi is a number.
sensorHistory.slice(-3) is List.drop (length - 3). -/
def detectAnomalies (fs : FieldState) (sensorHistory : List Reading) : List Alert :=
  (if fs.pump_on = true ∧ 3 ≤ sensorHistory.length then
    let recent := sensorHistory.drop (sensorHistory.length - 3)
    if (recent.getLastD emptyReading).soil_moisture
        - (recent.headD emptyReading).soil_moisture < 2 then
      [⟨.PUMP_ANOMALY, .high⟩]
    else []
  else []) ++
  (if fs.temperature = 0 ∧ fs.humidity = 0 then [⟨.SENSOR_FAILURE, .medium⟩] else []) ++
  (if fs.soil_moisture > 95 then [⟨.WATERLOGGING, .high⟩] else []) ++
  (if fs.soil_moisture > 60 ∧ fs.ndvi < 1/4 then
    [⟨.NDVI_MOISTURE_CONFLICT, .medium⟩] else []) ++
  (if fs.temperature > 42 then [⟨.HEAT_STRESS, .high⟩] else []) ++
  (if fs.temperature < 2 then [⟨.FROST_RISK, .high⟩] else [])

inductive Rating | Excellent | Good | Fair | NeedsImprovement | Initializing
deriving DecidableEq

/-- Irrigation statistics assembled by getIrrigationStats. -/
structure IrrigationStats where
  totalLitersUsed : ℚ
  irrigationCount : ℕ
  daysPeriod : ℚ
deriving DecidableEq

/-- The record returned by calculateWaterSavings. -/
structure Savings where
  savingPercent : ℤ
  litersPerDay : ℤ
  floodEquivalentLitersPerDay : ℚ
  totalSavedLiters : ℤ
  costSavedINR : ℤ
  irrigationCount : ℕ
  efficiencyRating : Rating
deriving DecidableEq

/-- calculateWaterSavings(fieldState, irrigationStats). -/
def calculateWaterSavings (fs : FieldState) (stats : IrrigationStats) : Savings :=
  let floodDailyLiters := fs.field_area_sqm * 6
  let floodTotalLiters := floodDailyLiters * stats.daysPeriod
  let actualDailyLiters := if stats.daysPeriod > 0 then stats.totalLitersUsed / stats.daysPeriod else 0
  let savingLiters := max 0 (floodTotalLiters - stats.totalLitersUsed)
  let savingPercent : ℤ :=
    if floodTotalLiters > 0 then jsRound (savingLiters / floodTotalLiters * 100) else 0
  { savingPercent := savingPercent
    litersPerDay := jsRound actualDailyLiters
    floodEquivalentLitersPerDay := floodDailyLiters
    totalSavedLiters := jsRound savingLiters
    costSavedINR := jsRound (savingLiters * (1/20))
    irrigationCount := stats.irrigationCount
    efficiencyRating :=
      if savingPercent > 50 then .Excellent
      else if savingPercent > 30 then .Good
      else if savingPercent > 10 then .Fair
      else .NeedsImprovement }

/-- JS logical-or defaulting for a possibly-missing number: absent or 0
(the only falsy number arising here) selects the default. -/
def jsOrNum (x : Option ℚ) (d : ℚ) : ℚ :=
  match x with
  | some v => if v = 0 then d else v
  | none => d

/-- JS logical-or defaulting for a possibly-missing string: absent or the
empty string selects the default. -/
def jsOrStr (x : Option String) (d : String) : String :=
  match x with
  | some v => if v = "" then d else v
  | none => d

/-- A sensor document (live payload or latest stored reading); any of its
fields may be absent. -/
structure SensorDoc where
  soil_moisture : Option ℚ
  temperature : Option ℚ
  humidity : Option ℚ
  rain_detected : Option Bool
deriving DecidableEq

/-- A crop-config document as returned by getCropConfig. -/
structure CropConfig where
  crop_type : Option String
  soil_type : Option String
  growth_stage : Option String
  thresholds : Option ThTable
  field_area_sqm : Option ℚ
  sprinkler_flow_rate_lpm : Option ℚ

/-- The object built in getCropConfig's catch branch when the config store
is unavailable. -/
def defaultCropConfigOnError : CropConfig :=
  { crop_type := some "Wheat"
    soil_type := some "Loamy"
    growth_stage := some "vegetative"
    thresholds := none
    field_area_sqm := some 1000
    sprinkler_flow_rate_lpm := some 15 }

/-- buildFieldState(farmId, liveSensorData) given the fetched upstream
documents: sensor is liveSensorData || latestSensor || the empty object,
each numeric field falls back to the latest history entry and then to the
documented default. -/
def buildFieldState (farmId : String) (live : Option SensorDoc)
    (latestSensor : Option SensorDoc) (cropConfig : CropConfig)
    (latestNdviValue : Option ℚ) (sensorHistory : List Reading) : FieldState :=
  let sensor : Option SensorDoc :=
    match live with
    | some d => some d
    | none => latestSensor
  let lastH := sensorHistory.getLast?
  { farm_id := farmId
    soil_moisture :=
      ((sensor.bind SensorDoc.soil_moisture).orElse
        (fun _ => lastH.map Reading.soil_moisture)).getD 50
    temperature :=
      ((sensor.bind SensorDoc.temperature).orElse
        (fun _ => lastH.map Reading.temperature)).getD 28
    humidity :=
      ((sensor.bind SensorDoc.humidity).orElse
        (fun _ => lastH.map Reading.humidity)).getD 60
    rain_detected := (sensor.bind SensorDoc.rain_detected).getD false
    rain_forecast := false
    ndvi := latestNdviValue.getD (1/2)
    crop_type := jsOrStr cropConfig.crop_type "Wheat"
    soil_type := jsOrStr cropConfig.soil_type "Loamy"
    growth_stage := jsOrStr cropConfig.growth_stage "vegetative"
    thresholds := cropConfig.thresholds
    pump_on := (lastH.map Reading.pump_on).getD false
    field_area_sqm := jsOrNum cropConfig.field_area_sqm 1000
    sprinkler_flow_rate := jsOrNum cropConfig.sprinkler_flow_rate_lpm 15
    last_irrigation_hours := 24 }

inductive Trend | improving | declining | stable | unknown
deriving DecidableEq

/-- getNDVITrend given the (up to five, newest first) fetched ndvi_value
numbers; none models a store fault (caught, yielding unknown). -/
def getNDVITrend (records : Option (List ℚ)) : Trend :=
  match records with
  | none => .unknown
  | some rs =>
    if rs.length < 2 then .stable
    else
      let change := rs.headD 0 - rs.getLastD 0
      if change > 1/20 then .improving
      else if change < -(1/20) then .declining
      else .stable

/-- getIrrigationStats given the fetched liters_used values of the last
seven days; the outer none models a store fault (caught, zero stats). -/
def getIrrigationStats (records : Option (List (Option ℚ))) : IrrigationStats :=
  match records with
  | none => ⟨0, 0, 7⟩
  | some rs => ⟨(rs.map (fun r => r.getD 0)).sum, rs.length, 7⟩

inductive StressLevel | CRITICAL | MODERATE | LOW
deriving DecidableEq

inductive OverallStatus | WARNING | MONITOR | HEALTHY | INITIALIZING
deriving DecidableEq

/-- The water-saving section of a report: the computed path embeds the
full calculateWaterSavings record, the static default report carries only
savingPercent 0 and an Initializing rating. -/
inductive WaterSavingSection
  | full (s : Savings)
  | initializing
deriving DecidableEq

/-- The field snapshot section of a report (empty object in the static
default report). -/
structure Snapshot where
  soilMoisture : ℚ
  temperature : ℚ
  humidity : ℚ
  rainDetected : Bool
  ndvi : ℚ
  cropType : String
  growthStage : String
  pumpOn : Bool
deriving DecidableEq

/-- The intelligence report composed by getIntelligenceReport (the source
tag is attached separately on return, so it is not part of this record). -/
structure Report where
  farmId : String
  timestamp : ℤ
  action : Action
  priority : Priority
  waterQuantityLiters : ℤ
  irrigationTimeMinutes : ℤ
  delayHours : ℤ
  stressScore : ℤ
  stressLevel : StressLevel
  hoursUntilDry : ℤ
  alertCount : ℕ
  alerts : List Alert
  overallStatus : OverallStatus
  waterSaving : WaterSavingSection
  currentNDVI : Option ℚ
  ndviTrend : Trend
  snapshot : Option Snapshot
deriving DecidableEq

/-- getDefaultReport(farmId): the static default report. -/
def getDefaultReport (farmId : String) (now : ℤ) : Report :=
  { farmId := farmId
    timestamp := now
    action := .DELAY
    priority := .NORMAL
    waterQuantityLiters := 0
    irrigationTimeMinutes := 0
    delayHours := 1
    stressScore := 0
    stressLevel := .LOW
    hoursUntilDry := 1
    alertCount := 0
    alerts := []
    overallStatus := .INITIALIZING
    waterSaving := .initializing
    currentNDVI := none
    ndviTrend := .unknown
    snapshot := none }

/-- The upstream fetch results consumed by one report computation (the
document store is an external collaborator, so its responses are inputs
of the model). -/
structure FetchResults where
  latestSensor : Option SensorDoc
  latestNdviValue : Option ℚ
  cropConfig : CropConfig
  irrigationRecords : Option (List (Option ℚ))
  ndviRecords : Option (List ℚ)

/-- The report composition inside getIntelligenceReport's try block
(steps 1-8). It faults (none) exactly when one of the pure computations
throws: the decision engine, the stress scorer, or step 5's destructuring
of getStageThresholds, each of which fails only on an unresolvable
threshold table. -/
def computeReport (now : ℤ) (farmId : String) (fs : FieldState)
    (sensorHistory : List Reading) (stats : IrrigationStats)
    (ndviRecords : Option (List ℚ)) : Option Report :=
  match generateIrrigationDecision fs, calculateCropStressRisk fs,
      getStageThresholds fs.growth_stage fs.thresholds with
  | some dec, some stress, some th =>
    let anomalyAlerts := detectAnomalies fs sensorHistory
    let hoursUntilDry :=
      estimateDryingTime fs.soil_moisture th.min fs.temperature fs.humidity
    some
      { farmId := farmId
        timestamp := now
        action := dec.action
        priority := dec.priority
        waterQuantityLiters := dec.waterQuantityLiters
        irrigationTimeMinutes :=
          computeIrrigationTime dec.waterQuantityLiters fs.sprinkler_flow_rate
        delayHours := dec.delayHours
        stressScore := stress
        stressLevel :=
          if stress > 70 then .CRITICAL
          else if stress > 40 then .MODERATE
          else .LOW
        hoursUntilDry := hoursUntilDry
        alertCount := anomalyAlerts.length
        alerts := anomalyAlerts
        overallStatus :=
          if 0 < (anomalyAlerts.filter (fun a => a.severity = .high)).length then .WARNING
          else if 0 < anomalyAlerts.length then .MONITOR
          else .HEALTHY
        waterSaving := .full (calculateWaterSavings fs stats)
        currentNDVI := some fs.ndvi
        ndviTrend := getNDVITrend ndviRecords
        snapshot := some
          { soilMoisture := fs.soil_moisture
            temperature := fs.temperature
            humidity := fs.humidity
            rainDetected := fs.rain_detected
            ndvi := fs.ndvi
            cropType := fs.crop_type
            growthStage := fs.growth_stage
            pumpOn := fs.pump_on } }
  | _, _, _ => none

/-- The source tag attached to a returned report. -/
inductive Source | computed | cache | error_fallback | default
deriving DecidableEq

/-- A returned report together with its source tag and staleness flag
(stale is only ever set by the error-fallback path). -/
structure TaggedReport where
  report : Report
  source : Source
  stale : Bool
deriving DecidableEq

/-- The module-level mutable state: the per-farm decision cache (report
with its computedAt milliseconds) and the per-farm sensor-history
buffers. -/
structure EngineState where
  decisionCache : String → Option (Report × ℤ)
  sensorHistory : String → List Reading

/-- The engine state at process start: empty cache, empty buffers. -/
def initialEngineState : EngineState :=
  { decisionCache := fun _ => none
    sensorHistory := fun _ => [] }

/-- CACHE_TTL_MS = 60_000. -/
def CACHE_TTL_MS : ℤ := 60000

/-- MAX_HISTORY = 20. -/
def MAX_HISTORY : ℕ := 20

/-- The cache-hit test of getIntelligenceReport: an entry must exist, be
younger than the TTL, and no live override may have been passed. -/
def cacheLookup (st : EngineState) (now : ℤ) (farmId : String)
    (live : Option SensorDoc) : Option Report :=
  match st.decisionCache farmId with
  | some entry =>
    if now - entry.2 < CACHE_TTL_MS ∧ live = none then some entry.1 else none
  | none => none

/-- getIntelligenceReport(farmId, liveSensorData) at time now, with the
given upstream fetch results: cache check, then compute-and-cache, with
the catch block falling back to the stale cached report or the static
default report. -/
def getIntelligenceReport (st : EngineState) (now : ℤ) (farmId : String)
    (live : Option SensorDoc) (fetch : FetchResults) : TaggedReport × EngineState :=
  match cacheLookup st now farmId live with
  | some rep => (⟨rep, .cache, false⟩, st)
  | none =>
    let history := st.sensorHistory farmId
    let fs := buildFieldState farmId live fetch.latestSensor fetch.cropConfig
      fetch.latestNdviValue history
    match computeReport now farmId fs history
        (getIrrigationStats fetch.irrigationRecords) fetch.ndviRecords with
    | some rep =>
      (⟨rep, .computed, false⟩,
        { st with decisionCache :=
            fun f => if f = farmId then some (rep, now) else st.decisionCache f })
    | none =>
      match st.decisionCache farmId with
      | some entry => (⟨entry.1, .error_fallback, true⟩, st)
      | none => (⟨getDefaultReport farmId now, .default, false⟩, st)

/-- ingestSensorData(farmId, sensorData, meta): appends the reading to the
farm's history buffer (pump_on is meta.pumpOn || false), trims the buffer
to the last MAX_HISTORY entries, and deletes the farm's cache entry. -/
def ingestSensorData (st : EngineState) (farmId : String)
    (sensorData : Reading) (metaPumpOn : Option Bool) : EngineState :=
  let entry := { sensorData with pump_on := metaPumpOn.getD false }
  let history := st.sensorHistory farmId ++ [entry]
  let history :=
    if MAX_HISTORY < history.length then history.drop (history.length - MAX_HISTORY)
    else history
  { decisionCache := fun f => if f = farmId then none else st.decisionCache f
    sensorHistory := fun f => if f = farmId then history else st.sensorHistory f }

/-- The engine-state effect of a successful updateCropConfig(farmId, _):
after the store write succeeds the farm's decision-cache entry is deleted
(on a store fault the function rethrows before reaching the delete). -/
def updateCropConfigCacheEffect (st : EngineState) (farmId : String) : EngineState :=
  { st with decisionCache := fun f => if f = farmId then none else st.decisionCache f }

/-- A representative fused field state (the documented per-field
defaults), reused as base point for concrete instances. -/
def baseFieldState : FieldState :=
  { farm_id := "farm-1"
    soil_moisture := 50
    temperature := 28
    humidity := 60
    rain_detected := false
    rain_forecast := false
    ndvi := 1/2
    crop_type := "Wheat"
    soil_type := "Loamy"
    growth_stage := "vegetative"
    thresholds := none
    pump_on := false
    field_area_sqm := 1000
    sprinkler_flow_rate := 15
    last_irrigation_hours := 24 }

lemma jsRound_nonneg {q : ℚ} (h : 0 ≤ q) : 0 ≤ jsRound q := by
  unfold jsRound
  exact Int.le_floor.mpr (by push_cast; linarith)

lemma jsRound_mono {a b : ℚ} (h : a ≤ b) : jsRound a ≤ jsRound b := by
  unfold jsRound
  exact Int.floor_le_floor (by linarith)

lemma estimateDryingTime_nonneg (c t te h : ℚ) : 0 ≤ estimateDryingTime c t te h := by
  unfold estimateDryingTime
  split
  · exact le_refl 0
  · exact le_trans (by norm_num) (le_max_left 1 _)

/-- C1. For every field state with rain_detected = true,
generateIrrigationDecision returns STOP with LOW priority, 0 liters and a
6 hour delay, regardless of soil moisture or any other field. -/
theorem rain_detected_yields_stop (fs : FieldState) (h : fs.rain_detected = true) :
    generateIrrigationDecision fs = some ⟨.STOP, .LOW, 0, 6⟩ := by
  simp [generateIrrigationDecision, h]

/-- Witness for C1: soil moisture 5 percent with rain detected still
yields STOP, not START. -/
theorem rain_detected_yields_stop_witness :
    ({ baseFieldState with rain_detected := true, soil_moisture := 5 } :
        FieldState).soil_moisture = 5 ∧
    generateIrrigationDecision
        { baseFieldState with rain_detected := true, soil_moisture := 5 } =
      some ⟨.STOP, .LOW, 0, 6⟩ :=
  ⟨rfl, rain_detected_yields_stop
    { baseFieldState with rain_detected := true, soil_moisture := 5 } rfl⟩

/-- Counterexample for C5: the source rounds the drying quotient with
Math.round (nearest integer), not upward, so (60, 40, 30, 50), whose
quotient is 20 / 1.5, yields 13 and not ceil(20/1.5) = 14. -/
theorem estimateDryingTime_not_rounded_up :
    estimateDryingTime 60 40 30 50 = 13 ∧ estimateDryingTime 60 40 30 50 ≠ 14 := by
  norm_num [estimateDryingTime, jsRound]

/-- C5 (amended): estimateDryingTime returns 0 exactly when current ≤
target, otherwise at least 1; the gap divided by the drying rate is
rounded to the nearest integer (Math.round), which on (60, 40, 30, 50)
gives 13. -/
theorem estimateDryingTime_amended :
    (∀ c t te h : ℚ, estimateDryingTime c t te h = 0 ↔ c ≤ t) ∧
    (∀ c t te h : ℚ, t < c → 1 ≤ estimateDryingTime c t te h) ∧
    estimateDryingTime 60 40 30 50 = 13 := by
  refine ⟨fun c t te h => ?_, fun c t te h hlt => ?_, ?_⟩
  · unfold estimateDryingTime
    split
    · simp_all
    · rename_i hgt
      constructor
      · intro h0
        exact absurd h0 (ne_of_gt (lt_of_lt_of_le zero_lt_one (le_max_left _ _)))
      · intro hle; exact absurd hle hgt
  · unfold estimateDryingTime
    split
    · linarith
    · exact le_max_left 1 _
  · norm_num [estimateDryingTime, jsRound]

/-- Witness for C5: drying time is 0 at (55, 60, 30, 50), at least 1 at
(60, 40, 30, 50), and equal to 13 there. -/
theorem estimateDryingTime_amended_witness :
    estimateDryingTime 55 60 30 50 = 0 ∧ 1 ≤ estimateDryingTime 60 40 30 50 ∧
      estimateDryingTime 60 40 30 50 = 13 :=
  ⟨(estimateDryingTime_amended.1 55 60 30 50).mpr (by norm_num),
   estimateDryingTime_amended.2.1 60 40 30 50 (by norm_num),
   estimateDryingTime_amended.2.2⟩

/-- A custom threshold table with no entries, as a caller may supply. -/
def emptyThTable : ThTable := fun _ => none

/-- Counterexample for C9: with a custom override table that contains
neither the requested stage nor a vegetative entry, getThresholds yields
undefined (none), not a well-defined record — the callers then throw on
the first property access. -/
theorem getThresholds_empty_override_undefined :
    getThresholds "flowering" (some emptyThTable) = none := by
  rfl

/-- C9 (amended): with no override table, resolution always yields a
record and falls back to the default vegetative entry for unrecognized
stages; with an override table, resolution consults only the overrides —
the stage entry when present, else the overrides' vegetative entry, which
may itself be absent, in which case no record is produced. -/
theorem getThresholds_resolution :
    (∀ stage : String, ∃ t, getThresholds stage none = some t) ∧
    (∀ stage : String, DEFAULT_THRESHOLDS stage = none →
      getThresholds stage none = some ⟨45, 70, 35⟩) ∧
    (∀ (stage : String) (o : ThTable) (t : Thresholds), o stage = some t →
      getThresholds stage (some o) = some t) ∧
    (∀ (stage : String) (o : ThTable), o stage = none →
      getThresholds stage (some o) = o "vegetative") := by
  refine ⟨fun stage => ?_, fun stage h => ?_, fun stage o t h => ?_, fun stage o h => ?_⟩
  · unfold getThresholds
    cases h : DEFAULT_THRESHOLDS stage with
    | some t => exact ⟨t, by simp [h]⟩
    | none => exact ⟨⟨45, 70, 35⟩, by simp [h]; rfl⟩
  · unfold getThresholds
    simp [h]
    rfl
  · unfold getThresholds
    simp [h]
  · unfold getThresholds
    simp [h]

/-- Witness for C9: an unknown stage resolves to the default vegetative
record, and an override entry wins for its own stage. -/
theorem getThresholds_resolution_witness :
    getThresholds "unknown" none = some ⟨45, 70, 35⟩ ∧
    getThresholds "harvest" (some (fun _ => some ⟨1, 2, 0⟩)) = some ⟨1, 2, 0⟩ :=
  ⟨getThresholds_resolution.2.1 "unknown" rfl,
   getThresholds_resolution.2.2.1 "harvest" (fun _ => some ⟨1, 2, 0⟩) ⟨1, 2, 0⟩ rfl⟩

/-- A malformed override table whose critical_low (50) exceeds min (10). -/
def malformedThTable : ThTable := fun _ => some ⟨10, 80, 50⟩

/-- Counterexample for C4: the source has no defensive clamp. With a
malformed threshold set (critical_low 50 above min 10) and moisture 30,
the critical-low rule computes deficit = 10 - 30 = -20 and returns
-120 liters. -/
theorem negative_liters_for_malformed_thresholds :
    generateIrrigationDecision
        { baseFieldState with thresholds := some malformedThTable, soil_moisture := 30 } =
      some ⟨.START, .HIGH, -120, 0⟩ ∧ (-120 : ℤ) < 0 := by
  constructor
  · norm_num [generateIrrigationDecision, getThresholds, malformedThTable,
      baseFieldState, jsRound]
  · norm_num

/-- C4 (amended): delayHours is non-negative for every field state; and
under the threshold precondition 0 ≤ criticalLow < min < max ≤ 100
together with a non-negative field area the liter quantity is
non-negative. The core does not clamp: a malformed threshold set with
critical_low above min can produce a negative liter quantity. -/
theorem decision_quantities_nonneg :
    (∀ (fs : FieldState) (d : Decision),
      generateIrrigationDecision fs = some d → 0 ≤ d.delayHours) ∧
    (∀ (fs : FieldState) (th : Thresholds) (d : Decision),
      getThresholds fs.growth_stage fs.thresholds = some th →
      0 ≤ th.critical_low → th.critical_low < th.min → th.min < th.max → th.max ≤ 100 →
      0 ≤ fs.field_area_sqm →
      generateIrrigationDecision fs = some d → 0 ≤ d.waterQuantityLiters) := by
  constructor
  · intro fs d hd
    unfold generateIrrigationDecision at hd
    split at hd
    · cases hd; norm_num
    · split at hd
      · cases hd; norm_num
      · rcases Option.map_eq_some'.mp hd with ⟨th, _, hv⟩
        subst hv
        split
        · norm_num
        · split
          · norm_num
          · split
            · split
              · norm_num
              · exact estimateDryingTime_nonneg _ _ _ _
            · norm_num
  · intro fs th d hth h0 hcl hmm hmax harea hd
    unfold generateIrrigationDecision at hd
    split at hd
    · cases hd; norm_num
    · split at hd
      · cases hd; norm_num
      · rw [hth] at hd
        simp only [Option.map_some', Option.some.injEq] at hd
        subst hd
        split
        · rename_i hsm
          simp only
          apply jsRound_nonneg
          have hdef : 0 < th.min - fs.soil_moisture := by linarith
          positivity
        · split
          · rename_i hsm
            simp only
            apply jsRound_nonneg
            have hdef : 0 < th.min - fs.soil_moisture := by linarith
            positivity
          · split
            · split
              · norm_num
              · norm_num
            · norm_num

lemma getThresholds_vegetative_default :
    getThresholds "vegetative" none = some ⟨45, 70, 35⟩ := rfl

/-- Witness for C4: under the valid vegetative thresholds, moisture 30
(below the critical low 35) with a 1000 square meter field gets
90 liters and a 0 hour delay, both non-negative. -/
theorem decision_quantities_nonneg_witness :
    generateIrrigationDecision { baseFieldState with soil_moisture := 30 } =
      some ⟨.START, .HIGH, 90, 0⟩ ∧
    (0 : ℤ) ≤ 90 ∧ (0 : ℤ) ≤ 0 := by
  have hdec : generateIrrigationDecision { baseFieldState with soil_moisture := 30 } =
      some ⟨.START, .HIGH, 90, 0⟩ := by
    norm_num [generateIrrigationDecision, getThresholds_vegetative_default,
      baseFieldState, jsRound]
  refine ⟨hdec, ?_, decision_quantities_nonneg.1 _ _ hdec⟩
  have := decision_quantities_nonneg.2 { baseFieldState with soil_moisture := 30 }
    ⟨45, 70, 35⟩ ⟨.START, .HIGH, 90, 0⟩ rfl (by norm_num) (by norm_num)
    (by norm_num) (by norm_num) (by norm_num [baseFieldState]) hdec
  exact this

/-- C7. With the sensor store, the NDVI store and the crop-config store
all unavailable and an empty history buffer, the fused field state is the
documented default (moisture 50, temperature 28, humidity 60, ndvi 0.5,
stage vegetative, rain flags false), and the decision on it is DELAY with
LOW priority. -/
theorem default_field_state_decision (farmId : String) :
    (buildFieldState farmId none none defaultCropConfigOnError none []).soil_moisture = 50 ∧
    (buildFieldState farmId none none defaultCropConfigOnError none []).temperature = 28 ∧
    (buildFieldState farmId none none defaultCropConfigOnError none []).humidity = 60 ∧
    (buildFieldState farmId none none defaultCropConfigOnError none []).ndvi = 1/2 ∧
    (buildFieldState farmId none none defaultCropConfigOnError none []).growth_stage =
      "vegetative" ∧
    (buildFieldState farmId none none defaultCropConfigOnError none []).rain_detected = false ∧
    (buildFieldState farmId none none defaultCropConfigOnError none []).rain_forecast = false ∧
    generateIrrigationDecision (buildFieldState farmId none none defaultCropConfigOnError none []) =
      some ⟨.DELAY, .LOW, 0, 4⟩ := by
  refine ⟨rfl, rfl, rfl, rfl, rfl, rfl, rfl, ?_⟩
  have hth : getThresholds
      (buildFieldState farmId none none defaultCropConfigOnError none []).growth_stage
      (buildFieldState farmId none none defaultCropConfigOnError none []).thresholds =
      some ⟨45, 70, 35⟩ := rfl
  have hsm : (buildFieldState farmId none none defaultCropConfigOnError none []).soil_moisture
      = 50 := rfl
  have htp : (buildFieldState farmId none none defaultCropConfigOnError none []).temperature
      = 28 := rfl
  have hhu : (buildFieldState farmId none none defaultCropConfigOnError none []).humidity
      = 60 := rfl
  have hnd : (buildFieldState farmId none none defaultCropConfigOnError none []).ndvi
      = 1/2 := rfl
  have hrd : (buildFieldState farmId none none defaultCropConfigOnError none []).rain_detected
      = false := rfl
  have hrf : (buildFieldState farmId none none defaultCropConfigOnError none []).rain_forecast
      = false := rfl
  norm_num [generateIrrigationDecision, hth, hsm, htp, hhu, hnd, hrd, hrf,
    estimateDryingTime, jsRound]

lemma moistureStressOf_anti (th : Thresholds) (hcl : th.critical_low < th.min)
    {m1 m2 : ℚ} (h12 : m1 ≤ m2) (h2 : m2 ≤ th.max) :
    moistureStressOf th m2 ≤ moistureStressOf th m1 := by
  unfold moistureStressOf
  have hd : (0:ℚ) < th.min - th.critical_low := by linarith
  split_ifs <;>
    first
    | linarith
    | (have q2 : (th.min - m2) / (th.min - th.critical_low) ≤ 1 :=
        (div_le_one hd).mpr (by linarith)
       linarith)
    | (have qm : (th.min - m2) / (th.min - th.critical_low) ≤
          (th.min - m1) / (th.min - th.critical_low) :=
        (div_le_div_iff_of_pos_right hd).mpr (by linarith)
       linarith)
    | (have q1 : 0 ≤ (th.min - m1) / (th.min - th.critical_low) :=
        div_nonneg (by linarith) hd.le
       linarith)

lemma moistureStressOf_mono_above (th : Thresholds) (hcl : th.critical_low < th.min)
    (hmm : th.min < th.max) {m1 m2 : ℚ} (h1 : th.max ≤ m1) (h12 : m1 ≤ m2) :
    moistureStressOf th m1 ≤ moistureStressOf th m2 := by
  have hn1 : ¬ m1 < th.critical_low := by linarith
  have hn2 : ¬ m1 < th.min := by linarith
  have hk1 : ¬ m2 < th.critical_low := by linarith
  have hk2 : ¬ m2 < th.min := by linarith
  unfold moistureStressOf
  rw [if_neg hn1, if_neg hn2, if_neg hk1, if_neg hk2]
  by_cases hgt1 : m1 > th.max
  · have hgt2 : m2 > th.max := by linarith
    rw [if_pos hgt1, if_pos hgt2]
    refine min_le_min le_rfl ?_
    have hq : (m1 - th.max) / 20 ≤ (m2 - th.max) / 20 := by linarith
    exact mul_le_mul_of_nonneg_right hq (by norm_num)
  · rw [if_neg hgt1]
    by_cases hgt2 : m2 > th.max
    · rw [if_pos hgt2]
      refine le_min (by norm_num) ?_
      have hq : (0:ℚ) ≤ (m2 - th.max) / 20 := by linarith
      exact mul_nonneg hq (by norm_num)
    · rw [if_neg hgt2]

lemma riskScoreOf_anti_in_moisture (th : Thresholds) (fs : FieldState)
    {m1 m2 : ℚ} (hcl : th.critical_low < th.min) (h12 : m1 ≤ m2) (h2 : m2 ≤ th.max) :
    riskScoreOf th { fs with soil_moisture := m2 } ≤
      riskScoreOf th { fs with soil_moisture := m1 } := by
  unfold riskScoreOf
  apply jsRound_mono
  dsimp only
  have hm := moistureStressOf_anti th hcl h12 h2
  exact min_le_min le_rfl (max_le_max le_rfl (by linarith))

lemma riskScoreOf_mono_above_in_moisture (th : Thresholds) (fs : FieldState)
    (hcl : th.critical_low < th.min) (hmm : th.min < th.max)
    {m1 m2 : ℚ} (h1 : th.max ≤ m1) (h12 : m1 ≤ m2) :
    riskScoreOf th { fs with soil_moisture := m1 } ≤
      riskScoreOf th { fs with soil_moisture := m2 } := by
  unfold riskScoreOf
  apply jsRound_mono
  dsimp only
  have hm := moistureStressOf_mono_above th hcl hmm h1 h12
  exact min_le_min le_rfl (max_le_max le_rfl (by linarith))

lemma riskScoreOf_range (th : Thresholds) (fs : FieldState) :
    0 ≤ riskScoreOf th fs ∧ riskScoreOf th fs ≤ 100 := by
  unfold riskScoreOf
  constructor
  · exact jsRound_nonneg (le_min (by norm_num) (le_max_left 0 _))
  · have h1 := jsRound_mono (min_le_left (100:ℚ)
      (max 0 (moistureStressOf th fs.soil_moisture * (2/5) +
        tempStressOf fs.temperature * (1/5) + ndviStressOf fs.ndvi * (1/4) +
        humidityStressOf fs.humidity * (3/20))))
    have h100 : jsRound (100:ℚ) = 100 := by norm_num [jsRound]
    omega

/-- C6. calculateCropStressRisk always returns a score in [0, 100]; and
with every other input held fixed and a valid threshold set
(criticalLow < min < max), the score is non-increasing in soil moisture up
to the max threshold and non-decreasing beyond it. -/
theorem stress_score_range_and_monotonicity :
    (∀ (fs : FieldState) (s : ℤ),
      calculateCropStressRisk fs = some s → 0 ≤ s ∧ s ≤ 100) ∧
    (∀ (fs : FieldState) (th : Thresholds) (m1 m2 : ℚ) (s1 s2 : ℤ),
      getThresholds fs.growth_stage fs.thresholds = some th →
      th.critical_low < th.min → th.min < th.max →
      m1 ≤ m2 → m2 ≤ th.max →
      calculateCropStressRisk { fs with soil_moisture := m1 } = some s1 →
      calculateCropStressRisk { fs with soil_moisture := m2 } = some s2 →
      s2 ≤ s1) ∧
    (∀ (fs : FieldState) (th : Thresholds) (m1 m2 : ℚ) (s1 s2 : ℤ),
      getThresholds fs.growth_stage fs.thresholds = some th →
      th.critical_low < th.min → th.min < th.max →
      th.max ≤ m1 → m1 ≤ m2 →
      calculateCropStressRisk { fs with soil_moisture := m1 } = some s1 →
      calculateCropStressRisk { fs with soil_moisture := m2 } = some s2 →
      s1 ≤ s2) := by
  refine ⟨fun fs s h => ?_, fun fs th m1 m2 s1 s2 hth hcl hmm h12 h2 hs1 hs2 => ?_,
    fun fs th m1 m2 s1 s2 hth hcl hmm h1 h12 hs1 hs2 => ?_⟩
  · unfold calculateCropStressRisk at h
    rcases Option.map_eq_some'.mp h with ⟨th, _, hv⟩
    exact hv ▸ riskScoreOf_range th fs
  · unfold calculateCropStressRisk at hs1 hs2
    dsimp only at hs1 hs2
    rw [hth] at hs1 hs2
    simp only [Option.map_some', Option.some.injEq] at hs1 hs2
    rw [← hs1, ← hs2]
    exact riskScoreOf_anti_in_moisture th fs hcl h12 h2
  · unfold calculateCropStressRisk at hs1 hs2
    dsimp only at hs1 hs2
    rw [hth] at hs1 hs2
    simp only [Option.map_some', Option.some.injEq] at hs1 hs2
    rw [← hs1, ← hs2]
    exact riskScoreOf_mono_above_in_moisture th fs hcl hmm h1 h12

/-- Witness for C6: at the default vegetative thresholds the base state
scores 5 (within [0, 100]), and lowering moisture from 50 to 40 raises
the score to 35, consistent with the non-increasing direction. -/
theorem stress_score_range_and_monotonicity_witness :
    calculateCropStressRisk baseFieldState = some 5 ∧
    (0 ≤ (5:ℤ) ∧ (5:ℤ) ≤ 100) ∧
    calculateCropStressRisk { baseFieldState with soil_moisture := 40 } = some 35 ∧
    (5:ℤ) ≤ 35 := by
  have h50 : calculateCropStressRisk baseFieldState = some 5 := by
    norm_num [calculateCropStressRisk, getThresholds_vegetative_default, baseFieldState,
      riskScoreOf, moistureStressOf, tempStressOf, ndviStressOf, humidityStressOf, jsRound]
  have h40 : calculateCropStressRisk { baseFieldState with soil_moisture := 40 } = some 35 := by
    norm_num [calculateCropStressRisk, getThresholds_vegetative_default, baseFieldState,
      riskScoreOf, moistureStressOf, tempStressOf, ndviStressOf, humidityStressOf, jsRound]
  have h50' : calculateCropStressRisk { baseFieldState with soil_moisture := 50 } = some 5 := h50
  refine ⟨h50, stress_score_range_and_monotonicity.1 baseFieldState 5 h50, h40, ?_⟩
  exact stress_score_range_and_monotonicity.2.1 baseFieldState ⟨45, 70, 35⟩ 40 50 35 5
    rfl (by norm_num) (by norm_num) (by norm_num) (by norm_num) h40 h50'

lemma mem_ite_nil {α : Type} (c : Prop) [Decidable c] (l : List α) (a : α) :
    (a ∈ if c then l else []) ↔ c ∧ a ∈ l := by
  split <;> simp_all

/-- The fixed insertion order of anomaly alert types. -/
def anomalyOrder : List AlertType :=
  [.PUMP_ANOMALY, .SENSOR_FAILURE, .WATERLOGGING,
   .NDVI_MOISTURE_CONFLICT, .HEAT_STRESS, .FROST_RISK]

/-- A field state with the pump running and otherwise quiet sensors. -/
def pumpOnFieldState : FieldState := { baseFieldState with pump_on := true }

/-- Five history readings whose overall first-to-last moisture rise is
1 point, but whose last-three window rises by 6 points. -/
def riseHistory : List Reading :=
  [⟨30, 28, 60, true⟩, ⟨28, 28, 60, true⟩, ⟨25, 28, 60, true⟩,
   ⟨26, 28, 60, true⟩, ⟨31, 28, 60, true⟩]

/-- Counterexample for C8: the pump check inspects only the last three
history entries (slice(-3)), not the history's first-to-last rise. Here
the pump is on, the history has five entries whose first-to-last moisture
rise is 1 (below 2), yet no PUMP_ANOMALY alert is raised because the
last-three window rises by 6. -/
theorem pump_anomaly_ignores_full_history :
    pumpOnFieldState.pump_on = true ∧
    3 ≤ riseHistory.length ∧
    (riseHistory.getLastD emptyReading).soil_moisture -
      (riseHistory.headD emptyReading).soil_moisture < 2 ∧
    detectAnomalies pumpOnFieldState riseHistory = [] := by
  refine ⟨rfl, by norm_num [riseHistory], by norm_num [riseHistory, emptyReading], ?_⟩
  norm_num [detectAnomalies, pumpOnFieldState, baseFieldState, riseHistory, emptyReading]

/-- C8 (amended): detectAnomalies evaluates every trigger independently
and the returned list preserves the fixed insertion order pump → sensor →
waterlogging → NDVI-conflict → heat → frost; each alert is present exactly
when its trigger holds, the pump trigger being: pump on, at least three
history entries, and the soil-moisture rise across the LAST THREE entries
(third-most-recent to most recent) below 2 points. -/
theorem anomaly_order_and_triggers (fs : FieldState) (hist : List Reading) :
    ((detectAnomalies fs hist).map Alert.type).Sublist anomalyOrder ∧
    ((fs.pump_on = true ∧ 3 ≤ hist.length ∧
        ((hist.drop (hist.length - 3)).getLastD emptyReading).soil_moisture -
          ((hist.drop (hist.length - 3)).headD emptyReading).soil_moisture < 2) ↔
      (⟨.PUMP_ANOMALY, .high⟩ : Alert) ∈ detectAnomalies fs hist) ∧
    ((fs.temperature = 0 ∧ fs.humidity = 0) ↔
      (⟨.SENSOR_FAILURE, .medium⟩ : Alert) ∈ detectAnomalies fs hist) ∧
    (fs.soil_moisture > 95 ↔
      (⟨.WATERLOGGING, .high⟩ : Alert) ∈ detectAnomalies fs hist) ∧
    ((fs.soil_moisture > 60 ∧ fs.ndvi < 1/4) ↔
      (⟨.NDVI_MOISTURE_CONFLICT, .medium⟩ : Alert) ∈ detectAnomalies fs hist) ∧
    (fs.temperature > 42 ↔
      (⟨.HEAT_STRESS, .high⟩ : Alert) ∈ detectAnomalies fs hist) ∧
    (fs.temperature < 2 ↔
      (⟨.FROST_RISK, .high⟩ : Alert) ∈ detectAnomalies fs hist) := by
  refine ⟨?_, ?_, ?_, ?_, ?_, ?_, ?_⟩
  · have h : (detectAnomalies fs hist).Sublist
        ([(⟨.PUMP_ANOMALY, .high⟩ : Alert)] ++ [⟨.SENSOR_FAILURE, .medium⟩] ++
         [⟨.WATERLOGGING, .high⟩] ++ [⟨.NDVI_MOISTURE_CONFLICT, .medium⟩] ++
         [⟨.HEAT_STRESS, .high⟩] ++ [⟨.FROST_RISK, .high⟩]) := by
      unfold detectAnomalies
      refine List.Sublist.append (List.Sublist.append (List.Sublist.append
        (List.Sublist.append (List.Sublist.append ?_ ?_) ?_) ?_) ?_) ?_ <;>
        (split_ifs <;> simp <;> try exact le_or_lt _ _)
    have hm := h.map Alert.type
    simpa [anomalyOrder] using hm
  all_goals unfold detectAnomalies
  all_goals simp only [List.mem_append, mem_ite_nil, List.mem_singleton, Alert.mk.injEq]
  all_goals simp
  all_goals try tauto

/-- Witness for C8: the documented three-entry example (30, 30, 30.5 with
pump on) produces a high-severity pump anomaly alert, placed before a
frost alert when one also fires. -/
theorem anomaly_order_and_triggers_witness :
    (⟨.PUMP_ANOMALY, .high⟩ : Alert) ∈
      detectAnomalies pumpOnFieldState
        [⟨30, 28, 60, true⟩, ⟨30, 28, 60, true⟩, ⟨61/2, 28, 60, true⟩] ∧
    ((detectAnomalies pumpOnFieldState
        [⟨30, 28, 60, true⟩, ⟨30, 28, 60, true⟩, ⟨61/2, 28, 60, true⟩]).map
      Alert.type).Sublist anomalyOrder := by
  constructor
  · refine (anomaly_order_and_triggers pumpOnFieldState
      [⟨30, 28, 60, true⟩, ⟨30, 28, 60, true⟩, ⟨61/2, 28, 60, true⟩]).2.1.mp ?_
    refine ⟨rfl, by norm_num, ?_⟩
    norm_num [emptyReading]
  · exact (anomaly_order_and_triggers pumpOnFieldState
      [⟨30, 28, 60, true⟩, ⟨30, 28, 60, true⟩, ⟨61/2, 28, 60, true⟩]).1

lemma cacheLookup_live_none (st : EngineState) (now : ℤ) (farmId : String)
    (d : SensorDoc) : cacheLookup st now farmId (some d) = none := by
  unfold cacheLookup
  split
  · simp
  · rfl

lemma getIntelligenceReport_computed (st : EngineState) (now : ℤ) (farmId : String)
    (live : Option SensorDoc) (fetch : FetchResults) (o : TaggedReport) (s : EngineState)
    (h : getIntelligenceReport st now farmId live fetch = (o, s))
    (hsrc : o.source = .computed) :
    computeReport now farmId
        (buildFieldState farmId live fetch.latestSensor fetch.cropConfig
          fetch.latestNdviValue (st.sensorHistory farmId))
        (st.sensorHistory farmId) (getIrrigationStats fetch.irrigationRecords)
        fetch.ndviRecords = some o.report ∧
    o.stale = false ∧
    s = { st with decisionCache :=
        fun f => if f = farmId then some (o.report, now) else st.decisionCache f } := by
  unfold getIntelligenceReport at h
  cases hcl : cacheLookup st now farmId live with
  | some rep =>
    simp only [hcl] at h
    injection h with h1 h2
    subst h1
    simp at hsrc
  | none =>
    simp only [hcl] at h
    cases hcr : computeReport now farmId
        (buildFieldState farmId live fetch.latestSensor fetch.cropConfig
          fetch.latestNdviValue (st.sensorHistory farmId))
        (st.sensorHistory farmId) (getIrrigationStats fetch.irrigationRecords)
        fetch.ndviRecords with
    | some rep =>
      simp only [hcr] at h
      injection h with h1 h2
      subst h1
      exact ⟨rfl, rfl, h2.symm⟩
    | none =>
      simp only [hcr] at h
      cases hdc : st.decisionCache farmId with
      | some entry =>
        simp only [hdc] at h
        injection h with h1 h2
        subst h1
        simp at hsrc
      | none =>
        simp only [hdc] at h
        injection h with h1 h2
        subst h1
        simp at hsrc

lemma getIR_cache_hit (st : EngineState) (now : ℤ) (farmId : String)
    (fetch : FetchResults) (rep : Report) (ts : ℤ)
    (hdc : st.decisionCache farmId = some (rep, ts))
    (htt : now - ts < CACHE_TTL_MS) :
    getIntelligenceReport st now farmId none fetch = (⟨rep, .cache, false⟩, st) := by
  unfold getIntelligenceReport cacheLookup
  rw [hdc]
  simp [htt]

/-- C2. getIntelligenceReport never propagates a computation fault: when
the cache misses and the report computation faults, the call resolves to
the farm's last cached report tagged error_fallback and stale, or, with no
cache entry, to the static default report — in either case a well-formed
report with the state unchanged. -/
theorem report_failure_fallback :
    ∀ (st : EngineState) (now : ℤ) (farmId : String) (live : Option SensorDoc)
      (fetch : FetchResults),
      cacheLookup st now farmId live = none →
      computeReport now farmId
          (buildFieldState farmId live fetch.latestSensor fetch.cropConfig
            fetch.latestNdviValue (st.sensorHistory farmId))
          (st.sensorHistory farmId) (getIrrigationStats fetch.irrigationRecords)
          fetch.ndviRecords = none →
      ((∃ rep ts, st.decisionCache farmId = some (rep, ts) ∧
          getIntelligenceReport st now farmId live fetch =
            (⟨rep, .error_fallback, true⟩, st)) ∨
       (st.decisionCache farmId = none ∧
          getIntelligenceReport st now farmId live fetch =
            (⟨getDefaultReport farmId now, .default, false⟩, st))) := by
  intro st now farmId live fetch hcl hcr
  unfold getIntelligenceReport
  rw [hcl]
  simp only [hcr]
  cases hdc : st.decisionCache farmId with
  | some entry => exact Or.inl ⟨entry.1, entry.2, rfl, rfl⟩
  | none => exact Or.inr ⟨rfl, rfl⟩

/-- An upstream fetch whose crop config carries an override table with no
entries: threshold resolution yields undefined and every pure computation
on the fused state faults. -/
def badFetch : FetchResults :=
  { latestSensor := none
    latestNdviValue := none
    cropConfig := { defaultCropConfigOnError with thresholds := some emptyThTable }
    irrigationRecords := none
    ndviRecords := none }

/-- Witness for C2: with an empty engine state and a faulting computation,
the call returns the static default report and leaves the state alone. -/
theorem report_failure_fallback_witness :
    getIntelligenceReport initialEngineState 0 "farm-1" none badFetch =
      (⟨getDefaultReport "farm-1" 0, .default, false⟩, initialEngineState) := by
  have h := report_failure_fallback initialEngineState 0 "farm-1" none badFetch rfl rfl
  rcases h with ⟨rep, ts, hdc, _⟩ | ⟨_, hres⟩
  · exact absurd hdc (by simp [initialEngineState])
  · exact hres

/-- C3. Cache correctness: a second call within the TTL and without a
live override returns the first call's report content tagged cache and
leaves the state unchanged; a call with a live override never answers
from the cache; ingesting sensor data or updating the crop config deletes
the farm's cache entry, so the next call cannot answer from the cache. -/
theorem cache_correctness_and_invalidation :
    (∀ (st : EngineState) (t0 t1 : ℤ) (farmId : String) (fetch1 fetch2 : FetchResults)
      (o1 : TaggedReport) (s1 : EngineState),
      getIntelligenceReport st t0 farmId none fetch1 = (o1, s1) →
      o1.source = .computed →
      t1 - t0 < CACHE_TTL_MS →
      getIntelligenceReport s1 t1 farmId none fetch2 = (⟨o1.report, .cache, false⟩, s1)) ∧
    (∀ (st : EngineState) (now : ℤ) (farmId : String) (d : SensorDoc)
      (fetch : FetchResults),
      ((getIntelligenceReport st now farmId (some d) fetch).1).source ≠ .cache) ∧
    (∀ (st : EngineState) (farmId : String) (r : Reading) (m : Option Bool),
      (ingestSensorData st farmId r m).decisionCache farmId = none) ∧
    (∀ (st : EngineState) (farmId : String),
      (updateCropConfigCacheEffect st farmId).decisionCache farmId = none) ∧
    (∀ (st : EngineState) (now : ℤ) (farmId : String) (r : Reading) (m : Option Bool)
      (fetch : FetchResults),
      ((getIntelligenceReport (ingestSensorData st farmId r m) now farmId none
        fetch).1).source ≠ .cache) := by
  have hnohit : ∀ (st : EngineState) (now : ℤ) (farmId : String)
      (live : Option SensorDoc) (fetch : FetchResults),
      cacheLookup st now farmId live = none →
      ((getIntelligenceReport st now farmId live fetch).1).source ≠ .cache := by
    intro st now farmId live fetch hcl
    unfold getIntelligenceReport
    rw [hcl]
    cases hcr : computeReport now farmId
        (buildFieldState farmId live fetch.latestSensor fetch.cropConfig
          fetch.latestNdviValue (st.sensorHistory farmId))
        (st.sensorHistory farmId) (getIrrigationStats fetch.irrigationRecords)
        fetch.ndviRecords with
    | some rep => simp only [hcr]; simp
    | none =>
      simp only [hcr]
      cases hdc : st.decisionCache farmId with
      | some entry => simp only [hdc]; simp
      | none => simp only [hdc]; simp
  refine ⟨?_, ?_, ?_, ?_, ?_⟩
  · intro st t0 t1 farmId fetch1 fetch2 o1 s1 h hsrc htt
    obtain ⟨hcr, hst, hs1⟩ := getIntelligenceReport_computed st t0 farmId none fetch1 o1 s1 h hsrc
    have hdc : s1.decisionCache farmId = some (o1.report, t0) := by
      rw [hs1]; simp
    exact getIR_cache_hit s1 t1 farmId fetch2 o1.report t0 hdc htt
  · intro st now farmId d fetch
    exact hnohit st now farmId (some d) fetch (cacheLookup_live_none st now farmId d)
  · intro st farmId r m
    unfold ingestSensorData
    simp
  · intro st farmId
    unfold updateCropConfigCacheEffect
    simp
  · intro st now farmId r m fetch
    apply hnohit
    unfold cacheLookup
    have hdc : (ingestSensorData st farmId r m).decisionCache farmId = none := by
      unfold ingestSensorData; simp
    rw [hdc]

/-- An upstream fetch for a successful computation: the latest stored
sensor reading reports rain with moisture at the vegetative minimum, the
NDVI store reports 0.8, and the crop config is the on-error default. -/
def witFetch : FetchResults :=
  { latestSensor := some ⟨some 45, some 28, some 60, some true⟩
    latestNdviValue := some (4/5)
    cropConfig := defaultCropConfigOnError
    irrigationRecords := none
    ndviRecords := none }

/-- Witness for C3: after a first computed call at time 0, a second call
at time 1 answers from the cache with the same report content. -/
theorem cache_correctness_and_invalidation_witness :
    (getIntelligenceReport
        ((getIntelligenceReport initialEngineState 0 "farm-1" none witFetch).2)
        1 "farm-1" none witFetch).1 =
      ⟨(getIntelligenceReport initialEngineState 0 "farm-1" none witFetch).1.report,
        .cache, false⟩ := by
  have h := cache_correctness_and_invalidation.1 initialEngineState 0 1 "farm-1"
    witFetch witFetch
    (getIntelligenceReport initialEngineState 0 "farm-1" none witFetch).1
    (getIntelligenceReport initialEngineState 0 "farm-1" none witFetch).2
    rfl rfl (by norm_num [CACHE_TTL_MS])
  rw [h]

/-- C10. A report computed under a live sensor override is written to the
decision cache with the call's timestamp, so a subsequent call without an
override, within the TTL and with no intervening invalidation, answers
from the cache with the override-derived report. -/
theorem override_report_cached :
    ∀ (st : EngineState) (t0 t1 : ℤ) (farmId : String) (d : SensorDoc)
      (fetch1 fetch2 : FetchResults) (o1 : TaggedReport) (s1 : EngineState),
      getIntelligenceReport st t0 farmId (some d) fetch1 = (o1, s1) →
      o1.source = .computed →
      t1 - t0 < CACHE_TTL_MS →
      s1.decisionCache farmId = some (o1.report, t0) ∧
      getIntelligenceReport s1 t1 farmId none fetch2 =
        (⟨o1.report, .cache, false⟩, s1) := by
  intro st t0 t1 farmId d fetch1 fetch2 o1 s1 h hsrc htt
  obtain ⟨hcr, hst, hs1⟩ :=
    getIntelligenceReport_computed st t0 farmId (some d) fetch1 o1 s1 h hsrc
  have hdc : s1.decisionCache farmId = some (o1.report, t0) := by
    rw [hs1]; simp
  exact ⟨hdc, getIR_cache_hit s1 t1 farmId fetch2 o1.report t0 hdc htt⟩

/-- Witness for C10: a live-override call at time 0 caches its report,
and a plain call at time 30000 returns it tagged cache. -/
theorem override_report_cached_witness :
    ((getIntelligenceReport initialEngineState 0 "farm-1"
        (some ⟨some 45, some 28, some 60, some true⟩) witFetch).2).decisionCache
      "farm-1" =
      some ((getIntelligenceReport initialEngineState 0 "farm-1"
        (some ⟨some 45, some 28, some 60, some true⟩) witFetch).1.report, 0) ∧
    (getIntelligenceReport
        ((getIntelligenceReport initialEngineState 0 "farm-1"
          (some ⟨some 45, some 28, some 60, some true⟩) witFetch).2)
        30000 "farm-1" none witFetch).1 =
      ⟨(getIntelligenceReport initialEngineState 0 "farm-1"
          (some ⟨some 45, some 28, some 60, some true⟩) witFetch).1.report,
        .cache, false⟩ := by
  have h := override_report_cached initialEngineState 0 30000 "farm-1"
    ⟨some 45, some 28, some 60, some true⟩ witFetch witFetch
    (getIntelligenceReport initialEngineState 0 "farm-1"
      (some ⟨some 45, some 28, some 60, some true⟩) witFetch).1
    (getIntelligenceReport initialEngineState 0 "farm-1"
      (some ⟨some 45, some 28, some 60, some true⟩) witFetch).2
    rfl rfl (by norm_num [CACHE_TTL_MS])
  exact ⟨h.1, by rw [h.2]⟩

end AgroSense
